import Mathlib

/-!
Shallow embedding of the `mdtf_test_data` dataset-synthesis core
(modules `mdtf_data_decimator/coarseners.py` and
`mdtf_data_decimator/synthetic.py`).

Numeric modelling conventions:
* Python/numpy floating-point scalars are modelled as exact rationals (`ℚ`).
  Every numeric literal appearing in the verified claims (grid spacings that
  divide 180/360, the value 360/51, fill values, the hybrid-coordinate table)
  is exactly representable as an IEEE double, so the rational semantics agrees
  with the float semantics on the inputs the claims are about.
* numpy arrays are modelled as Lean lists; `np.arange(start, stop, step)` is
  modelled with numpy's documented length formula, the ceiling of
  `(stop - start) / step`.
* The numpy global random generator is modelled as an abstract state type `S`
  with a seeding function and a normal-sampling function (the generator is an
  external library, not part of this repository); its state is threaded
  explicitly exactly where the Python code uses the global generator.
* Python exceptions are modelled with `Except`: a fallible operation returns
  `Except PyErr α`.
-/

namespace Mdtf

/-- Python exception values that the embedded code can raise. -/
inductive PyErr where
  | typeError (msg : String)
  | assertionError (msg : String)
deriving DecidableEq, Repr

/-- Python float modulus `a % b` for the positive operands used in
`construct_rect_grid`, on the exact-rational model. -/
def qmod (a b : ℚ) : ℚ := a - b * ⌊a / b⌋

/-- Model of `np.arange(start, stop, step)` for positive `step`: numpy produces
`ceil((stop - start) / step)` evenly spaced values starting at `start`. -/
def arange (start stop step : ℚ) : List ℚ :=
  (List.range (⌈(stop - start) / step⌉).toNat).map
    (fun i : ℕ => start + (i : ℚ) * step)

/-- Result of `construct_rect_grid`: the lat/lon center sequences of the
returned shell dataset, together with the (possibly adjusted) spacings and
whether an adjustment warning was emitted for each axis. -/
structure RectGrid where
  lat : List ℚ
  lon : List ℚ
  dlatAdj : ℚ
  dlonAdj : ℚ
  latWarn : Bool
  lonWarn : Bool
deriving Repr

/-- Embedding of `coarseners.construct_rect_grid(dlon, dlat)`: adjust each
spacing that does not evenly divide its extent (emitting a warning), then build
cell-centered latitude and longitude sequences with `np.arange`. -/
def construct_rect_grid (dlon dlat : ℚ) : RectGrid :=
  let latBad := qmod 180 dlat ≠ 0
  let dlat' := if qmod 180 dlat ≠ 0 then 180 / ((⌊(180 : ℚ) / dlat⌋ : ℤ) : ℚ) else dlat
  let lonBad := qmod 360 dlon ≠ 0
  let dlon' := if qmod 360 dlon ≠ 0 then 360 / ((⌊(360 : ℚ) / dlon⌋ : ℤ) : ℚ) else dlon
  { lat := arange (-90 + dlat' / 2) 90 dlat'
    lon := arange (0 + dlon' / 2) 360 dlon'
    dlatAdj := dlat'
    dlonAdj := dlon'
    latWarn := decide latBad
    lonWarn := decide lonBad }

/-- Parameter names of `construct_rect_grid`, read off its `def` line; used to
model Python keyword-argument binding at call sites. -/
def construct_rect_grid_paramNames : List String := ["dlon", "dlat"]

/-- Python call binding: a call with keyword arguments succeeds only if every
keyword matches a parameter name; otherwise it raises a `TypeError`. -/
def acceptsKwargs (paramNames kwargs : List String) : Bool :=
  kwargs.all (fun k => paramNames.contains k)

/-- Timestamp of the `cftime.DatetimeNoLeap` calendar: a plain
(year, month, day) triple; the noleap calendar has no leap days, dates are
whatever components they were built from. -/
structure NoLeapDate where
  year : ℤ
  month : ℕ
  day : ℕ
deriving DecidableEq, Repr

/-- Embedding of the comprehension
`[year for year in np.arange(startyear, startyear + ny) for x in range(12)]`:
each of the `ny` consecutive years starting at `startyear`, repeated 12
times. -/
def yearsExpanded (startyear : ℤ) (ny : ℕ) : List ℤ :=
  ((List.range ny).map (fun i : ℕ => startyear + (i : ℤ))).flatMap
    (fun y => List.replicate 12 y)

/-- Embedding of `list(np.arange(1, 13)) * ny`: the month cycle 1..12 repeated
`ny` times. -/
def monthsCycle (ny : ℕ) : List ℕ :=
  (List.replicate ny (List.range' 1 12)).flatten

/-- Embedding of
`[cftime.DatetimeNoLeap(*x) for x in zip(years, months, days)]` with a constant
day-of-month. -/
def rawDates (startyear : ℤ) (ny : ℕ) (day : ℕ) : List NoLeapDate :=
  ((yearsExpanded startyear ny).zip (monthsCycle ny)).map
    (fun p => ⟨p.1, p.2, day⟩)

/-- Embedding of `synthetic.generate_monthly_time_axis(startyear, nyears,
format)`: returns the time sequence and the list of (start, end) bound pairs.
Python slices `l[1:-11]` and `l[0:-12]` are rendered with `drop`/`take` and
`take` on lengths (with truncated `Nat` subtraction matching the empty slices
Python produces when the list is short). -/
def generate_monthly_time_axis (startyear : ℤ) (nyears : ℕ) (fmt : String) :
    List NoLeapDate × List (NoLeapDate × NoLeapDate) :=
  let ny := if fmt = "ncar" then nyears + 1 else nyears
  let day := if fmt = "ncar" then 1 else 15
  let times0 := rawDates startyear ny day
  let times := if fmt = "ncar" then (times0.drop 1).take (times0.length - 12)
               else times0
  let bounds0 := rawDates startyear ny 1 ++ [⟨startyear + (ny : ℤ), 1, 1⟩]
  let bounds1 := bounds0.dropLast.zip bounds0.tail
  let bounds := if fmt = "ncar" then bounds1.take (bounds1.length - 12)
                else bounds1
  (times, bounds)

/-- Level-midpoint values of `ncar_hybrid_coord` (the `lev` table), transcribed
from the source. -/
def ncar_hybrid_lev : List ℚ := [
    2.501651, 4.187496, 6.66766, 10.099201, 14.551163, 19.943806,
    26.002806, 32.250471, 38.050216, 42.70557, 46.240154, 49.511782,
    53.014888, 56.765857, 60.782212, 65.082732, 69.687527, 74.618127,
    79.897583, 85.550576, 91.603545, 98.084766, 105.024556, 112.455371,
    120.411924, 128.931421, 138.053706, 147.821421, 158.280234, 169.479033,
    181.470176, 194.309746, 208.057754, 222.778457, 238.540693, 255.418164,
    273.489746, 292.839941, 313.559268, 335.744541, 359.499453, 384.935117,
    412.17043, 441.332715, 472.55834, 505.993262, 541.793789, 580.127324,
    621.173066, 665.12291, 712.182383, 762.571445, 816.525625, 858.699883,
    886.368125, 912.162773, 935.873203, 957.301758, 976.266953, 992.556094]

/-- Hybrid A coefficients of `ncar_hybrid_coord` (the `hyam` table). -/
def ncar_hybrid_hyam : List ℚ := [
    2.501651e-03, 4.187496e-03, 6.667660e-03, 1.009920e-02, 1.455116e-02, 1.994381e-02,
    2.600281e-02, 3.225047e-02, 3.805022e-02, 4.270557e-02, 4.624015e-02, 4.951178e-02,
    5.301489e-02, 5.676586e-02, 6.078221e-02, 6.508273e-02, 6.968753e-02, 7.461813e-02,
    7.989758e-02, 8.555058e-02, 9.160354e-02, 9.808477e-02, 1.050246e-01, 1.124554e-01,
    1.204119e-01, 1.289314e-01, 1.380537e-01, 1.478214e-01, 1.582802e-01, 1.694790e-01,
    1.746796e-01, 1.726401e-01, 1.696388e-01, 1.664251e-01, 1.629841e-01, 1.592996e-01,
    1.553543e-01, 1.511300e-01, 1.466068e-01, 1.417635e-01, 1.365776e-01, 1.310247e-01,
    1.250790e-01, 1.187125e-01, 1.118957e-01, 1.045965e-01, 9.678086e-02, 8.841227e-02,
    7.945159e-02, 6.985690e-02, 5.958334e-02, 4.858288e-02, 3.680412e-02, 2.759706e-02,
    2.155681e-02, 1.592557e-02, 1.074934e-02, 6.071232e-03, 1.930966e-03, -1.648308e-09]

/-- Hybrid B coefficients of `ncar_hybrid_coord` (the `hybm` table). -/
def ncar_hybrid_hybm : List ℚ := [
    0.0, 0.0, 0.0, 0.0, 0.0, 0.0,
    0.0, 0.0, 0.0, 0.0, 0.0, 0.0,
    0.0, 0.0, 0.0, 0.0, 0.0, 0.0,
    0.0, 0.0, 0.0, 0.0, 0.0, 0.0,
    0.0, 0.0, 0.0, 0.0, 0.0, 0.0,
    0.006791, 0.02167, 0.038419, 0.056353, 0.075557, 0.096119,
    0.118135, 0.14171, 0.166953, 0.193981, 0.222922, 0.25391,
    0.287091, 0.32262, 0.360663, 0.401397, 0.445013, 0.491715,
    0.541721, 0.595266, 0.652599, 0.713989, 0.779722, 0.831103,
    0.864811, 0.896237, 0.925124, 0.951231, 0.974336, 0.992556]

/-- Embedding of `synthetic.ncar_hybrid_coord()`: the fixed 60-level NCAR CAM2
hybrid vertical coordinate, returned as the three aligned sequences
(lev, hyam, hybm). -/
def ncar_hybrid_coord : List ℚ × List ℚ × List ℚ :=
  (ncar_hybrid_lev, ncar_hybrid_hyam, ncar_hybrid_hybm)

/-- Abstract model of the numpy global random generator: a state type `S`, the
state produced by `np.random.seed(n)`, and the sampling step
`np.random.normal(mean, std, shape)`, which returns the drawn array (as a flat
value list) and the advanced generator state.  The generator itself lives in
numpy, outside this repository, so it is kept abstract; every theorem below
holds for an arbitrary generator model. -/
structure NumpyRNG (S : Type) where
  seed : ℕ → S
  normal : ℚ → ℚ → ℕ × ℕ → S → List ℚ × S

/-- Argument shape of the polymorphic `stats` parameter: a bare (mean, stddev)
pair or a list of such pairs, mirroring `isinstance(stats, list)`. -/
inductive StatsArg where
  | single (p : ℚ × ℚ)
  | multi (l : List (ℚ × ℚ))
deriving Repr

/-- Embedding of `stats = [stats] if not isinstance(stats, list) else stats`. -/
def normalizeStats : StatsArg → List (ℚ × ℚ)
  | .single p => [p]
  | .multi l => l

/-- Embedding of
`np.array([np.random.normal(x[0], x[1], xyshape) for x in stats])`: one normal
draw per statistics pair, threading the global generator state left to
right. -/
def drawAllStats {S : Type} (rng : NumpyRNG S) (shape : ℕ × ℕ) :
    List (ℚ × ℚ) → S → List (List ℚ) × S
  | [], s => ([], s)
  | st :: rest, s =>
    let r1 := rng.normal st.1 st.2 shape s
    let r2 := drawAllStats rng shape rest r1.2
    (r1.1 :: r2.1, r2.2)

/-- Embedding of the loop body of `generate_random_array`: `k` remaining
iterations starting at time index `n`; each iteration reseeds the global
generator from the time index alone and then draws one array per statistics
pair. -/
def genSteps {S : Type} (rng : NumpyRNG S) (shape : ℕ × ℕ)
    (stats : List (ℚ × ℚ)) : ℕ → ℕ → S → List (List (List ℚ)) × S
  | 0, _, s => ([], s)
  | k + 1, n, _ =>
    let s1 := rng.seed n
    let r1 := drawAllStats rng shape stats s1
    let r2 := genSteps rng shape stats k (n + 1) r1.2
    (r1.1 :: r2.1, r2.2)

/-- Embedding of `synthetic.generate_random_array(xyshape, ntimes, stats,
dtype)`.  `s0` is the state of the numpy global generator on entry and `cast`
is the elementwise conversion performed by the final `astype(dtype)`. -/
def generate_random_array {S : Type} (rng : NumpyRNG S) (s0 : S)
    (xyshape : ℕ × ℕ) (ntimes : ℕ) (statsArg : StatsArg) (cast : ℚ → ℚ) :
    List (List (List ℚ)) :=
  let stats := normalizeStats statsArg
  (genSteps rng xyshape stats ntimes 0 s0).1.map
    (fun perTime => perTime.map (fun arr => arr.map cast))

/-- Test whether `pat` occurs at the start of `s`, on character lists. -/
def charListStartsWith : List Char → List Char → Bool
  | _, [] => true
  | [], _ :: _ => false
  | c :: cs, p :: ps => c = p && charListStartsWith cs ps

/-- Test whether `pat` occurs somewhere in `s`, on character lists. -/
def charListHasSub : List Char → List Char → Bool
  | [], pat => pat.isEmpty
  | c :: cs, pat => charListStartsWith (c :: cs) pat || charListHasSub cs pat

/-- Presence of a substring, modelling Python's `"float" in str(dtype)`. -/
def strContainsSub (s pat : String) : Bool := charListHasSub s.data pat.data

/-- Encoding entries that `write_to_netcdf` assigns to one variable.  A fill
value of `some none` models the explicit assignment `_FillValue = None`, while
`none` means the loop body assigned no fill value at all. -/
structure VarEncoding where
  edtype : Option String
  units : Option String
  fill : Option (Option ℚ)
deriving DecidableEq, Repr

/-- Embedding of the per-variable branch of `synthetic.write_to_netcdf`: the
encoding assigned to a variable, determined by its name and the string form of
its dtype. -/
def encodeVariable (name dtypeStr : String) : VarEncoding :=
  if name = "time" then
    { edtype := some "i4", units := some "days since 1975-01-01", fill := none }
  else if name = "time_bnds" then
    { edtype := some "i4", units := some "days since 1975-01-01", fill := none }
  else if name = "date" then
    { edtype := some "i4", units := none, fill := none }
  else if strContainsSub dtypeStr "float" then
    { edtype := none, units := none, fill := some (some 1.0e20) }
  else if strContainsSub dtypeStr "int" then
    { edtype := none, units := none, fill := some (some (-999)) }
  else
    { edtype := none, units := none, fill := some none }

/-- Embedding of the loop of `write_to_netcdf` over `dset_out.variables`: each
variable, given as a (name, dtype-string) pair, receives the encoding computed
by `encodeVariable`. -/
def write_to_netcdf_encodings (varList : List (String × String)) :
    List (String × VarEncoding) :=
  varList.map (fun v => (v.1, encodeVariable v.1 v.2))

/-- Dataset assembled by `generate_ncar_dataset` (when assembly succeeds):
coordinate sequences, time bounds, derived date field, the optional hybrid
vertical coordinate, and the named data variable. -/
structure NCARDataset where
  lat : List ℚ
  lon : List ℚ
  time : List NoLeapDate
  time_bnds : List (NoLeapDate × NoLeapDate)
  date : List ℤ
  lev : Option (List ℚ)
  hyam : Option (List ℚ)
  hybm : Option (List ℚ)
  varname : String
  data : List (List (List ℚ))

/-- Embedding of `int(x.strftime("%Y%m%d"))` for a noleap date. -/
def dateAsInt (d : NoLeapDate) : ℤ := d.year * 10000 + (d.month : ℤ) * 100 + d.day

/-- Embedding of `np.squeeze` on the logical shape of an array: all axes of
extent 1 are removed. -/
def squeezeShape (shape : List ℕ) : List ℕ := shape.filter (fun n => n ≠ 1)

/-- Embedding of `synthetic.generate_ncar_dataset(stats, dlon, dlat, startyear,
nyears, varname, attrs)`.  Its first statement is the call
`construct_rect_grid(dlon, dlat, add_attrs=True)`; Python binds keyword
arguments against `construct_rect_grid`'s parameter list before running the
callee, raising a `TypeError` when a keyword matches no parameter.  The rest of
the body (time axis, date field, optional hybrid coordinate, random data,
squeeze and the level-count assertion) is embedded after that binding check.
`rng`, `s0` and `float32cast` model the numpy generator environment passed
through to `generate_random_array`. -/
def generate_ncar_dataset {S : Type} (rng : NumpyRNG S) (s0 : S)
    (float32cast : ℚ → ℚ) (stats : StatsArg) (dlon dlat : ℚ) (startyear : ℤ)
    (nyears : ℕ) (varname : String) : Except PyErr NCARDataset :=
  if acceptsKwargs construct_rect_grid_paramNames ["add_attrs"] then
    let ds := construct_rect_grid dlon dlat
    let xyshape := (ds.lat.length, ds.lon.length)
    let ta := generate_monthly_time_axis startyear nyears "ncar"
    let dates := ta.1.map dateAsInt
    let statsList := normalizeStats stats
    let withLev := 1 < statsList.length
    let levOpt := if withLev then some ncar_hybrid_lev else none
    let hyamOpt := if withLev then some ncar_hybrid_hyam else none
    let hybmOpt := if withLev then some ncar_hybrid_hybm else none
    let data := generate_random_array rng s0 xyshape ta.1.length
      (StatsArg.multi statsList) float32cast
    let shape := squeezeShape [ta.1.length, statsList.length, xyshape.1, xyshape.2]
    if shape.length = 4 then
      if statsList.length = ncar_hybrid_lev.length then
        Except.ok { lat := ds.lat, lon := ds.lon, time := ta.1,
                    time_bnds := ta.2, date := dates, lev := levOpt,
                    hyam := hyamOpt, hybm := hybmOpt, varname := varname,
                    data := data }
      else
        Except.error (PyErr.assertionError "Length of stats must match number of levels")
    else
      Except.ok { lat := ds.lat, lon := ds.lon, time := ta.1,
                  time_bnds := ta.2, date := dates, lev := levOpt,
                  hyam := hyamOpt, hybm := hybmOpt, varname := varname,
                  data := data }
  else
    Except.error (PyErr.typeError
      "construct_rect_grid() got an unexpected keyword argument add_attrs")

/-- Concrete generator model used to instantiate the determinism theorem. -/
def witnessRNG : NumpyRNG ℕ :=
  ⟨fun n => n, fun mean std _ s => ([mean, std, (s : ℚ)], s + 1)⟩

/-- C1: for every input, `generate_ncar_dataset` raises a `TypeError` before
constructing any part of the dataset, because its first statement calls
`construct_rect_grid` with the keyword argument `add_attrs`, which is not in
`construct_rect_grid`'s parameter list. -/
theorem generate_ncar_dataset_always_typeError {S : Type} (rng : NumpyRNG S)
    (s0 : S) (float32cast : ℚ → ℚ) (stats : StatsArg) (dlon dlat : ℚ)
    (startyear : ℤ) (nyears : ℕ) (varname : String) :
    generate_ncar_dataset rng s0 float32cast stats dlon dlat startyear nyears
      varname =
    Except.error (PyErr.typeError
      "construct_rect_grid() got an unexpected keyword argument add_attrs") := by
  rfl

/-- C2: every call to `generate_ncar_dataset` whose statistics list has length
greater than 1 and different from the 60 levels of the hybrid vertical
coordinate aborts with an error and produces no dataset.  (In the code as
written the abort is the `TypeError` of the `construct_rect_grid` call, which
is raised before the level-count assertion can run; either way no partial
dataset is produced.) -/
theorem generate_ncar_dataset_stats_mismatch_fatal {S : Type} (rng : NumpyRNG S)
    (s0 : S) (float32cast : ℚ → ℚ) (stats : List (ℚ × ℚ)) (dlon dlat : ℚ)
    (startyear : ℤ) (nyears : ℕ) (varname : String)
    (hlong : 1 < stats.length) (hmismatch : stats.length ≠ 60) :
    ∃ e : PyErr,
      generate_ncar_dataset rng s0 float32cast (StatsArg.multi stats) dlon dlat
        startyear nyears varname = Except.error e := by
  exact ⟨_, generate_ncar_dataset_always_typeError rng s0 float32cast
    (StatsArg.multi stats) dlon dlat startyear nyears varname⟩

/-- Witness for C2 at a concrete 3-element statistics list. -/
theorem generate_ncar_dataset_stats_mismatch_fatal_witness :
    1 < ([(0, 1), (2, 1), (4, 1)] : List (ℚ × ℚ)).length ∧
    ([(0, 1), (2, 1), (4, 1)] : List (ℚ × ℚ)).length ≠ 60 ∧
    ∃ e : PyErr,
      generate_ncar_dataset ⟨fun n => n, fun _ _ _ s => ([], s)⟩ (0 : ℕ)
        (fun q => q) (StatsArg.multi [(0, 1), (2, 1), (4, 1)]) 20 20 1975 1
        "temp" = Except.error e :=
  ⟨by decide, by decide,
   generate_ncar_dataset_stats_mismatch_fatal ⟨fun n => n, fun _ _ _ s => ([], s)⟩
     (0 : ℕ) (fun q => q) [(0, 1), (2, 1), (4, 1)] 20 20 1975 1 "temp"
     (by decide) (by decide)⟩

/-- C10: `ncar_hybrid_coord` takes no parameters and returns three sequences
(level midpoints, hyam, hybm) each of length exactly 60, with `hybm`
non-decreasing and its first 30 entries equal to 0. -/
theorem ncar_hybrid_coord_spec :
    ncar_hybrid_coord.1.length = 60 ∧
    ncar_hybrid_coord.2.1.length = 60 ∧
    ncar_hybrid_coord.2.2.length = 60 ∧
    List.Chain' (fun a b => a ≤ b) ncar_hybrid_coord.2.2 ∧
    ncar_hybrid_coord.2.2.take 30 = List.replicate 30 (0 : ℚ) := by
  refine ⟨rfl, rfl, rfl, ?_, ?_⟩
  · simp only [ncar_hybrid_coord, ncar_hybrid_hybm, List.chain'_cons,
      List.chain'_singleton, and_true]
    norm_num
  · simp only [ncar_hybrid_coord, ncar_hybrid_hybm]
    norm_num [List.replicate, List.take]

/-- C4: the encoding `write_to_netcdf` assigns to each variable is a pure
function of its name and dtype (`encodeVariable`, mapped over the variable
list); `time` and `time_bnds` get 4-byte-integer dtype with units
"days since 1975-01-01" and no fill value, `date` gets 4-byte-integer dtype
and no fill value, every other float-typed variable gets fill value 1.0e20,
every other integer-typed variable gets fill value -999, and any remaining
variable gets no fill value (the explicit `None` assignment). -/
theorem write_to_netcdf_encoding_rules :
    (∀ (varList : List (String × String)) (nd : String × String), nd ∈ varList →
       (nd.1, encodeVariable nd.1 nd.2) ∈ write_to_netcdf_encodings varList) ∧
    (∀ d, encodeVariable "time" d =
       ⟨some "i4", some "days since 1975-01-01", none⟩) ∧
    (∀ d, encodeVariable "time_bnds" d =
       ⟨some "i4", some "days since 1975-01-01", none⟩) ∧
    (∀ d, encodeVariable "date" d = ⟨some "i4", none, none⟩) ∧
    (∀ n d, n ≠ "time" → n ≠ "time_bnds" → n ≠ "date" →
       (strContainsSub d "float" = true →
          encodeVariable n d = ⟨none, none, some (some 1.0e20)⟩) ∧
       (strContainsSub d "float" = false → strContainsSub d "int" = true →
          encodeVariable n d = ⟨none, none, some (some (-999))⟩) ∧
       (strContainsSub d "float" = false → strContainsSub d "int" = false →
          encodeVariable n d = ⟨none, none, some none⟩)) := by
  refine ⟨?_, fun d => rfl, fun d => rfl, fun d => rfl, ?_⟩
  · intro varList nd hmem
    exact List.mem_map.mpr ⟨nd, hmem, rfl⟩
  · intro n d h1 h2 h3
    refine ⟨fun hf => ?_, fun hf hi => ?_, fun hf hi => ?_⟩ <;>
      simp [encodeVariable, h1, h2, h3, hf]
    · simp [hi]
    · simp [hi]

/-- Witness for C4, instantiating every hypothesis-bearing clause at concrete
variables. -/
theorem write_to_netcdf_encoding_rules_witness :
    ("temp", encodeVariable "temp" "float32") ∈
      write_to_netcdf_encodings [("temp", "float32")] ∧
    encodeVariable "time" "i8" =
      ⟨some "i4", some "days since 1975-01-01", none⟩ ∧
    encodeVariable "temp" "float32" = ⟨none, none, some (some 1.0e20)⟩ ∧
    encodeVariable "count" "int64" = ⟨none, none, some (some (-999))⟩ ∧
    encodeVariable "label" "obj" = ⟨none, none, some none⟩ :=
  ⟨write_to_netcdf_encoding_rules.1 [("temp", "float32")] ("temp", "float32")
     (by decide),
   write_to_netcdf_encoding_rules.2.1 "i8",
   (write_to_netcdf_encoding_rules.2.2.2.2 "temp" "float32" (by decide)
     (by decide) (by decide)).1 (by decide),
   (write_to_netcdf_encoding_rules.2.2.2.2 "count" "int64" (by decide)
     (by decide) (by decide)).2.1 (by decide) (by decide),
   (write_to_netcdf_encoding_rules.2.2.2.2 "label" "obj" (by decide)
     (by decide) (by decide)).2.2 (by decide) (by decide)⟩

/-- Length of a 12-fold replication flat-map. -/
theorem length_flatMap_replicate {α : Type} (l : List α) (k : ℕ) :
    (l.flatMap (fun y => List.replicate k y)).length = l.length * k := by
  induction l with
  | nil => simp
  | cons a t ih => simp [List.flatMap_cons, ih, Nat.succ_mul, Nat.add_comm]

/-- The expanded year list has one entry per month. -/
theorem yearsExpanded_length (sy : ℤ) (ny : ℕ) :
    (yearsExpanded sy ny).length = ny * 12 := by
  unfold yearsExpanded
  rw [length_flatMap_replicate]
  simp

/-- The repeated month cycle has one entry per month. -/
theorem monthsCycle_length (ny : ℕ) : (monthsCycle ny).length = ny * 12 := by
  induction ny with
  | zero => simp [monthsCycle]
  | succ n ih =>
    simp only [monthsCycle, List.replicate_succ, List.flatten_cons,
      List.length_append, List.length_range'] at ih ⊢
    omega

/-- The raw monthly date list has one entry per month. -/
theorem rawDates_length (sy : ℤ) (ny day : ℕ) :
    (rawDates sy ny day).length = ny * 12 := by
  simp [rawDates, List.length_zip, yearsExpanded_length, monthsCycle_length]

/-- Every raw date carries the constant day-of-month it was built with. -/
theorem rawDates_day (sy : ℤ) (ny day : ℕ) (d : NoLeapDate)
    (h : d ∈ rawDates sy ny day) : d.day = day := by
  obtain ⟨p, _, rfl⟩ := List.mem_map.mp h
  rfl

/-- The month cycle of a single year, written out. -/
theorem range'_one_twelve :
    List.range' 1 12 = [1, 2, 3, 4, 5, 6, 7, 8, 9, 10, 11, 12] := rfl

/-- Peeling the first year off the shifted year range. -/
theorem range_map_add_succ (sy : ℤ) (ny : ℕ) :
    (List.range (ny + 1)).map (fun i : ℕ => sy + (i : ℤ)) =
      sy :: (List.range ny).map (fun i : ℕ => (sy + 1) + (i : ℤ)) := by
  rw [List.range_succ_eq_map, List.map_cons, List.map_map]
  congr 1
  · norm_num
  · refine List.map_congr_left ?_
    intro i _
    simp [Nat.succ_eq_add_one]
    ring

/-- Peeling the first year off the expanded year list. -/
theorem yearsExpanded_succ (sy : ℤ) (ny : ℕ) :
    yearsExpanded sy (ny + 1) =
      List.replicate 12 sy ++ yearsExpanded (sy + 1) ny := by
  unfold yearsExpanded
  rw [range_map_add_succ, List.flatMap_cons]

/-- Peeling the first year off the month cycle. -/
theorem monthsCycle_succ (ny : ℕ) :
    monthsCycle (ny + 1) = List.range' 1 12 ++ monthsCycle ny := by
  simp [monthsCycle, List.replicate_succ]

/-- Peeling the first year (12 dates, months 1..12) off the raw date list. -/
theorem rawDates_succ (sy : ℤ) (ny day : ℕ) :
    rawDates sy (ny + 1) day =
      (List.range' 1 12).map (fun m => ⟨sy, m, day⟩) ++
        rawDates (sy + 1) ny day := by
  unfold rawDates
  rw [yearsExpanded_succ, monthsCycle_succ,
    List.zip_append (by simp), List.map_append]
  congr 1


/-- Taking a positive-length front segment keeps the head. -/
theorem head?_take_pos {α : Type} (l : List α) (N : ℕ) (h : 0 < N) :
    (l.take N).head? = l.head? := by
  cases l with
  | nil => simp
  | cons a t =>
    cases N with
    | zero => omega
    | succ n => simp

/-- The trimmed "ncar" time series has exactly `ny * 12` entries. -/
theorem gmta_ncar_length (sy : ℤ) (ny : ℕ) :
    (generate_monthly_time_axis sy ny "ncar").1.length = ny * 12 := by
  simp [generate_monthly_time_axis, List.length_take, List.length_drop,
    rawDates_length]
  omega

/-- The trimmed "ncar" time series starts at the second month of the start
year. -/
theorem gmta_ncar_head (sy : ℤ) (ny : ℕ) (h : 1 ≤ ny) :
    (generate_monthly_time_axis sy ny "ncar").1.head? = some ⟨sy, 2, 1⟩ := by
  obtain ⟨m, rfl⟩ : ∃ m, ny = m + 1 := ⟨ny - 1, by omega⟩
  simp only [generate_monthly_time_axis, reduceIte]
  rw [head?_take_pos]
  · rw [rawDates_succ, range'_one_twelve]
    simp
  · rw [rawDates_length]
    omega

/-- An element found in a front segment is at the same position of the full
list. -/
theorem getElem?_take_some {α : Type} {l : List α} {n i : ℕ} {a : α}
    (h : (l.take n)[i]? = some a) : l[i]? = some a := by
  rw [List.getElem?_take] at h
  by_cases hi : i < n
  · rwa [if_pos hi] at h
  · rw [if_neg hi] at h
    cases h

/-- In `zip(l[0:-1], l[1:])` the second component of a pair equals the first
component of the next pair. -/
theorem zip_dropLast_tail_adjacent {α : Type} :
    ∀ (l : List α) (i : ℕ) (p q : α × α),
      (l.dropLast.zip l.tail)[i]? = some p →
      (l.dropLast.zip l.tail)[i + 1]? = some q → p.2 = q.1
  | [], _, _, _, hp, _ => by simp at hp
  | [a], _, _, _, hp, _ => by simp at hp
  | a :: b :: t, 0, p, q, hp, hq => by
    simp only [List.dropLast_cons₂, List.tail_cons, List.zip_cons_cons,
      List.getElem?_cons_zero, List.getElem?_cons_succ,
      Option.some.injEq] at hp hq
    cases t with
    | nil => simp at hq
    | cons c t' =>
      simp only [List.dropLast_cons₂, List.tail_cons, List.zip_cons_cons,
        List.getElem?_cons_zero, Option.some.injEq] at hq
      rw [← hp, ← hq]
  | a :: b :: t, i + 1, p, q, hp, hq => by
    simp only [List.dropLast_cons₂, List.tail_cons, List.zip_cons_cons,
      List.getElem?_cons_succ] at hp hq
    exact zip_dropLast_tail_adjacent (b :: t) i p q hp hq

/-- Time and bounds sequences always have the same length, for every format
string. -/
theorem gmta_lengths (sy : ℤ) (ny : ℕ) (fmt : String) :
    (generate_monthly_time_axis sy ny fmt).1.length =
      (generate_monthly_time_axis sy ny fmt).2.length := by
  by_cases hf : fmt = "ncar" <;>
    (simp [generate_monthly_time_axis, hf, List.length_take, List.length_drop,
       List.length_zip, List.length_dropLast, List.length_tail,
       List.length_append, rawDates_length]
     try omega)

/-- Every date in the bound-endpoint list has day-of-month 1. -/
theorem mem_bounds0 (sy : ℤ) (ny : ℕ) (d : NoLeapDate)
    (h : d ∈ rawDates sy ny 1 ++ [(⟨sy + (ny : ℤ), 1, 1⟩ : NoLeapDate)]) :
    d.day = 1 := by
  rcases List.mem_append.mp h with h1 | h1
  · exact rawDates_day sy ny 1 d h1
  · simp at h1
    subst h1
    rfl

/-- Every timestamp produced by the time-axis builder has day-of-month 1 or
15, and both endpoints of every bound pair have day-of-month 1. -/
theorem gmta_noleap (sy : ℤ) (ny : ℕ) (fmt : String) :
    (∀ d ∈ (generate_monthly_time_axis sy ny fmt).1,
       d.day = 1 ∨ d.day = 15) ∧
    (∀ p ∈ (generate_monthly_time_axis sy ny fmt).2,
       p.1.day = 1 ∧ p.2.day = 1) := by
  constructor
  · intro d hd
    by_cases hf : fmt = "ncar" <;> simp only [generate_monthly_time_axis, hf,
      if_true, if_false, reduceIte] at hd
    · exact Or.inl (rawDates_day sy (ny + 1) 1 d
        (List.mem_of_mem_drop (List.mem_of_mem_take hd)))
    · exact Or.inr (rawDates_day sy ny 15 d hd)
  · intro p hp
    by_cases hf : fmt = "ncar" <;> simp only [generate_monthly_time_axis, hf,
      if_true, if_false, reduceIte] at hp
    · have hp1 := List.mem_of_mem_take hp
      have h2 := List.of_mem_zip hp1
      exact ⟨mem_bounds0 sy (ny + 1) p.1 (List.mem_of_mem_dropLast h2.1),
             mem_bounds0 sy (ny + 1) p.2 (List.mem_of_mem_tail h2.2)⟩
    · have h2 := List.of_mem_zip hp
      exact ⟨mem_bounds0 sy ny p.1 (List.mem_of_mem_dropLast h2.1),
             mem_bounds0 sy ny p.2 (List.mem_of_mem_tail h2.2)⟩

/-- C5: `generate_monthly_time_axis(2000, 2, "ncar")` returns exactly 24
timestamps, the first being 2000-02-01 and the last 2002-01-01 in the no-leap
calendar; in general the "ncar" format yields exactly `nyears * 12` monthly
timestamps beginning at the second month of `startyear`. -/
theorem generate_monthly_time_axis_ncar_spec :
    (generate_monthly_time_axis 2000 2 "ncar").1.length = 24 ∧
    (generate_monthly_time_axis 2000 2 "ncar").1.head? = some ⟨2000, 2, 1⟩ ∧
    (generate_monthly_time_axis 2000 2 "ncar").1.getLast? =
      some ⟨2002, 1, 1⟩ ∧
    (∀ (sy : ℤ) (ny : ℕ),
       (generate_monthly_time_axis sy ny "ncar").1.length = ny * 12) ∧
    (∀ (sy : ℤ) (ny : ℕ), 1 ≤ ny →
       (generate_monthly_time_axis sy ny "ncar").1.head? = some ⟨sy, 2, 1⟩) :=
  ⟨by decide, by decide, by decide, gmta_ncar_length, gmta_ncar_head⟩

/-- Witness for C5 at `startyear = 1975`, `nyears = 1`. -/
theorem generate_monthly_time_axis_ncar_spec_witness :
    1 ≤ 1 ∧
    (generate_monthly_time_axis 1975 1 "ncar").1.head? =
      some ⟨1975, 2, 1⟩ :=
  ⟨by decide, generate_monthly_time_axis_ncar_spec.2.2.2.2 1975 1 (by decide)⟩

/-- C6: for every start year, every `nyears >= 1` and every format string
(the "ncar" branch and the default branch taken by any other string), the
time and bounds sequences have equal length and no timestamp in either is
February 29 (the no-leap calendar, with all generated days being 1 or 15). -/
theorem generate_monthly_time_axis_len_and_noleap (sy : ℤ) (ny : ℕ)
    (fmt : String) (h : 1 ≤ ny) :
    ((generate_monthly_time_axis sy ny fmt).1.length =
       (generate_monthly_time_axis sy ny fmt).2.length) ∧
    (∀ d ∈ (generate_monthly_time_axis sy ny fmt).1,
       ¬(d.month = 2 ∧ d.day = 29)) ∧
    (∀ p ∈ (generate_monthly_time_axis sy ny fmt).2,
       ¬(p.1.month = 2 ∧ p.1.day = 29) ∧ ¬(p.2.month = 2 ∧ p.2.day = 29)) := by
  refine ⟨gmta_lengths sy ny fmt, ?_, ?_⟩
  · intro d hd
    have := (gmta_noleap sy ny fmt).1 d hd
    omega
  · intro p hp
    have := (gmta_noleap sy ny fmt).2 p hp
    omega

/-- Witness for C6 at `startyear = 2000`, `nyears = 1`, format "ncar",
checked on the first generated timestamp. -/
theorem generate_monthly_time_axis_len_and_noleap_witness :
    1 ≤ 1 ∧
    (generate_monthly_time_axis 2000 1 "ncar").1.length =
      (generate_monthly_time_axis 2000 1 "ncar").2.length ∧
    ¬((⟨2000, 2, 1⟩ : NoLeapDate).month = 2 ∧
      (⟨2000, 2, 1⟩ : NoLeapDate).day = 29) :=
  ⟨by decide, (generate_monthly_time_axis_len_and_noleap 2000 1 "ncar"
     (by decide)).1,
   (generate_monthly_time_axis_len_and_noleap 2000 1 "ncar"
     (by decide)).2.1 ⟨2000, 2, 1⟩ (by decide)⟩

/-- C7: the bound pairs produced by `generate_monthly_time_axis` are
contiguous under either format: the end of each pair equals the start of the
next. -/
theorem generate_monthly_time_axis_bounds_contiguous (sy : ℤ) (ny : ℕ)
    (fmt : String) (i : ℕ) (p q : NoLeapDate × NoLeapDate)
    (hp : (generate_monthly_time_axis sy ny fmt).2[i]? = some p)
    (hq : (generate_monthly_time_axis sy ny fmt).2[i + 1]? = some q) :
    p.2 = q.1 := by
  by_cases hf : fmt = "ncar"
  · simp only [generate_monthly_time_axis, hf, reduceIte] at hp hq
    exact zip_dropLast_tail_adjacent _ i p q (getElem?_take_some hp)
      (getElem?_take_some hq)
  · simp only [generate_monthly_time_axis, hf, reduceIte] at hp hq
    exact zip_dropLast_tail_adjacent _ i p q hp hq

/-- Witness for C7 at the first two bound pairs of the 2000/1/"ncar" axis. -/
theorem generate_monthly_time_axis_bounds_contiguous_witness :
    ((⟨2000, 1, 1⟩, ⟨2000, 2, 1⟩) : NoLeapDate × NoLeapDate).2 =
      ((⟨2000, 2, 1⟩, ⟨2000, 3, 1⟩) : NoLeapDate × NoLeapDate).1 :=
  generate_monthly_time_axis_bounds_contiguous 2000 1 "ncar" 0
    (⟨2000, 1, 1⟩, ⟨2000, 2, 1⟩) (⟨2000, 2, 1⟩, ⟨2000, 3, 1⟩)
    (by decide) (by decide)

/-- The per-time output of the generation loop does not depend on the incoming
global generator state, because every iteration reseeds from the time index. -/
theorem genSteps_fst_state_irrel {S : Type} (rng : NumpyRNG S)
    (shape : ℕ × ℕ) (stats : List (ℚ × ℚ)) (k n : ℕ) (s s' : S) :
    (genSteps rng shape stats k n s).1 =
      (genSteps rng shape stats k n s').1 := by
  cases k <;> rfl

/-- Truncating a longer run of the generation loop gives exactly a shorter
run started at the same time index. -/
theorem genSteps_fst_take {S : Type} (rng : NumpyRNG S) (shape : ℕ × ℕ)
    (stats : List (ℚ × ℚ)) :
    ∀ (m k n : ℕ) (s : S), m ≤ k →
      ((genSteps rng shape stats k n s).1).take m =
        (genSteps rng shape stats m n s).1 := by
  intro m
  induction m with
  | zero =>
    intro k n s _
    simp [genSteps]
  | succ m ih =>
    intro k n s hmk
    obtain ⟨k', rfl⟩ : ∃ k', k = k' + 1 := ⟨k - 1, by omega⟩
    simp only [genSteps, List.take_succ_cons]
    rw [ih k' (n + 1) _ (by omega)]

/-- C3: `generate_random_array` is deterministic and its output is
time-prefix-stable: the result does not depend on the generator state on
entry (so two calls with identical `(xy_shape, n_times, stats, dtype)` return
identical arrays), and for `m <= n` the first `m` time slices of the
`n_times = n` output equal the whole `n_times = m` output, because each time
step reseeds the generator purely from its own time index. -/
theorem generate_random_array_det_and_stable {S : Type} (rng : NumpyRNG S)
    (s0 s1 : S) (xyshape : ℕ × ℕ) (n m : ℕ) (statsArg : StatsArg)
    (cast : ℚ → ℚ) (hmn : m ≤ n) :
    generate_random_array rng s0 xyshape n statsArg cast =
      generate_random_array rng s1 xyshape n statsArg cast ∧
    (generate_random_array rng s0 xyshape n statsArg cast).take m =
      generate_random_array rng s0 xyshape m statsArg cast := by
  constructor
  · simp only [generate_random_array]
    rw [genSteps_fst_state_irrel rng xyshape _ n 0 s0 s1]
  · simp only [generate_random_array]
    rw [← List.map_take, genSteps_fst_take rng xyshape _ m n 0 s0 hmn]

/-- Witness for C3 with a concrete generator model, two distinct entry
states, `n_times` 3 and 2. -/
theorem generate_random_array_det_and_stable_witness :
    2 ≤ 3 ∧
    (generate_random_array witnessRNG 5 (2, 2) 3 (StatsArg.single (0, 1))
        (fun q => q) =
      generate_random_array witnessRNG 9 (2, 2) 3 (StatsArg.single (0, 1))
        (fun q => q) ∧
    (generate_random_array witnessRNG 5 (2, 2) 3 (StatsArg.single (0, 1))
        (fun q => q)).take 2 =
      generate_random_array witnessRNG 5 (2, 2) 2 (StatsArg.single (0, 1))
        (fun q => q)) :=
  ⟨by decide, generate_random_array_det_and_stable witnessRNG 5 9 (2, 2) 3 2
    (StatsArg.single (0, 1)) (fun q => q) (by decide)⟩

/-- A spacing that divides 180 evenly leaves no float-modulus remainder. -/
theorem qmod_eq_zero_of_mul (d : ℚ) (k : ℕ) (hpos : 0 < d)
    (hk : d * k = 180) : qmod 180 d = 0 := by
  have hd : d ≠ 0 := ne_of_gt hpos
  have hdiv : (180 : ℚ) / d = (k : ℚ) := by
    rw [div_eq_iff hd]
    linarith [hk]
  unfold qmod
  rw [hdiv, Int.floor_natCast]
  push_cast
  linarith [hk]

/-- The latitude `np.arange` count for a spacing dividing 180 evenly. -/
theorem arange_count_of_div (d : ℚ) (k : ℕ) (hpos : 0 < d)
    (hk : d * k = 180) : (⌈(90 - (-90 + d / 2)) / d⌉).toNat = k := by
  have hd : d ≠ 0 := ne_of_gt hpos
  have hdiv : (90 - (-90 + d / 2)) / d = (k : ℚ) - 1 / 2 := by
    rw [div_eq_iff hd]
    ring_nf
    linarith [hk]
  have hceil : ⌈(k : ℚ) - 1 / 2⌉ = (k : ℤ) := by
    rw [Int.ceil_eq_iff]
    constructor
    · push_cast
      norm_num
    · push_cast
      norm_num
  rw [hdiv, hceil]
  omega

/-- C8: when `dlat` divides 180 evenly (`dlat * k = 180`),
`construct_rect_grid` performs no latitude adjustment and its latitude
centers are the arithmetic sequence of exactly `k = 180/dlat` values with
step `dlat`, first element `-90 + dlat/2` and last element `90 - dlat/2`. -/
theorem construct_rect_grid_lat_spec (dlon d : ℚ) (k : ℕ)
    (hpos : 0 < d) (hk : d * k = 180) :
    (construct_rect_grid dlon d).latWarn = false ∧
    (construct_rect_grid dlon d).dlatAdj = d ∧
    (construct_rect_grid dlon d).lat =
      (List.range k).map (fun i : ℕ => (-90 + d / 2) + (i : ℚ) * d) ∧
    (construct_rect_grid dlon d).lat.length = k ∧
    (construct_rect_grid dlon d).lat.head? = some (-90 + d / 2) ∧
    (construct_rect_grid dlon d).lat.getLast? = some (90 - d / 2) := by
  have h0 := qmod_eq_zero_of_mul d k hpos hk
  have hk1 : 1 ≤ k := by
    by_contra hc
    have : k = 0 := by omega
    rw [this] at hk
    norm_num at hk
  have hlat : (construct_rect_grid dlon d).lat =
      (List.range k).map (fun i : ℕ => (-90 + d / 2) + (i : ℚ) * d) := by
    simp only [construct_rect_grid, h0, ne_eq, not_true_eq_false, if_false,
      reduceIte, arange, arange_count_of_div d k hpos hk]
  refine ⟨by simp [construct_rect_grid, h0],
    by simp [construct_rect_grid, h0], hlat, ?_, ?_, ?_⟩
  · rw [hlat]
    simp
  · rw [hlat]
    obtain ⟨m, rfl⟩ : ∃ m, k = m + 1 := ⟨k - 1, by omega⟩
    rw [List.range_succ_eq_map]
    simp only [List.map_cons, List.head?_cons, Option.some.injEq]
    norm_num
  · rw [hlat, List.getLast?_eq_getElem?]
    simp only [List.length_map, List.length_range]
    rw [List.getElem?_map, List.getElem?_range (by omega : k - 1 < k)]
    rw [Option.map_some']
    congr 1
    have hcast : ((k - 1 : ℕ) : ℚ) = (k : ℚ) - 1 := by
      push_cast [Nat.cast_sub hk1]
      ring
    rw [hcast]
    have : d * k = 180 := hk
    ring_nf
    linarith [hk]

/-- Witness for C8 at `dlat = 20`, which divides 180 into `k = 9` centers. -/
theorem construct_rect_grid_lat_spec_witness :
    (0 : ℚ) < 20 ∧ (20 : ℚ) * ((9 : ℕ) : ℚ) = 180 ∧
    ((construct_rect_grid 10 20).latWarn = false ∧
     (construct_rect_grid 10 20).dlatAdj = 20 ∧
     (construct_rect_grid 10 20).lat =
       (List.range 9).map (fun i : ℕ => (-90 + (20 : ℚ) / 2) + (i : ℚ) * 20) ∧
     (construct_rect_grid 10 20).lat.length = 9 ∧
     (construct_rect_grid 10 20).lat.head? = some (-90 + (20 : ℚ) / 2) ∧
     (construct_rect_grid 10 20).lat.getLast? = some (90 - (20 : ℚ) / 2)) :=
  ⟨by norm_num, by norm_num,
   construct_rect_grid_lat_spec 10 20 9 (by norm_num) (by norm_num)⟩

/-- C9: when `dlon` does not divide 360 evenly, `construct_rect_grid`
replaces it with `360 / floor(360/dlon)` and emits the non-fatal adjustment
warning; in particular for `dlon = 7` the adjusted spacing is `360/51` and
exactly 51 longitude centers are produced. -/
theorem construct_rect_grid_lon_adjust_spec :
    (∀ dlon dlat : ℚ, qmod 360 dlon ≠ 0 →
       (construct_rect_grid dlon dlat).lonWarn = true ∧
       (construct_rect_grid dlon dlat).dlonAdj =
         360 / ((⌊(360 : ℚ) / dlon⌋ : ℤ) : ℚ)) ∧
    (construct_rect_grid 7 20).lonWarn = true ∧
    (construct_rect_grid 7 20).dlonAdj = 360 / 51 ∧
    (construct_rect_grid 7 20).lon.length = 51 := by
  have h7 : qmod 360 (7 : ℚ) ≠ 0 := by norm_num [qmod]
  have hfl : ⌊(360 : ℚ) / 7⌋ = 51 := by norm_num
  refine ⟨?_, ?_, ?_, ?_⟩
  · intro dlon dlat h
    constructor <;> simp [construct_rect_grid, h]
  · simp [construct_rect_grid, h7]
  · simp [construct_rect_grid, h7, hfl]
  · simp only [construct_rect_grid, h7, ne_eq, not_false_eq_true, if_true,
      reduceIte, hfl, arange, List.length_map, List.length_range]
    norm_num
    have hc : ⌈(101 : ℚ) / 2⌉ = (51 : ℤ) := by
      rw [Int.ceil_eq_iff]
      norm_num
    rw [hc]
    rfl

/-- Witness for C9, instantiating the universally quantified adjustment
clause at `dlon = 7`. -/
theorem construct_rect_grid_lon_adjust_spec_witness :
    qmod 360 (7 : ℚ) ≠ 0 ∧
    ((construct_rect_grid 7 20).lonWarn = true ∧
     (construct_rect_grid 7 20).dlonAdj =
       360 / ((⌊(360 : ℚ) / 7⌋ : ℤ) : ℚ)) :=
  ⟨by norm_num [qmod],
   construct_rect_grid_lon_adjust_spec.1 7 20 (by norm_num [qmod])⟩

end Mdtf
